import Mathlib

/-!
Verification of the obstacle filtering and hazard-analytics engine of the
aerovert-de repository.  The definitions below are a shallow embedding of
the two `ObstacleProvider` versions in `src/context/ObstacleContext.tsx`
(the `filteredData` / `avgCeiling` computations) and of the analytics
engines A-H of the strategic dashboard page.  JavaScript strings are
modelled as Lean `String` values with character-wise ASCII case mapping,
JavaScript numbers carrying fractional values (the `radius` field, the
compliance ratio) as rationals, flight levels and heights as integers, and
dates as a serial day number bundled with the calendar fields the dashboard
reads.  A collection that may still be `null` (mid-fetch) is an
`Option (List Feature)`.
-/

namespace Aerovert

/-- JS `String.prototype.includes`: `incl s sub` holds when `sub` occurs
contiguously inside `s`. -/
def incl (s sub : String) : Bool := decide (sub.data <:+: s.data)

/-- JS `String.prototype.toLowerCase`, character-wise (ASCII). -/
def jsLower (s : String) : String := ⟨s.data.map Char.toLower⟩

/-- JS `String.prototype.toUpperCase`, character-wise (ASCII). -/
def jsUpper (s : String) : String := ⟨s.data.map Char.toUpper⟩

/-- JS `s || dflt` on an optional string: `undefined` and the empty string
are falsy, everything else passes through. -/
def jsOrStr (o : Option String) (dflt : String) : String :=
  match o with
  | none => dflt
  | some s => if s = "" then dflt else s

/-- A JS `Date`: serial day number (for comparisons) bundled with the
calendar fields (`getFullYear`, `getMonth`) that the dashboard reads. -/
structure JsDate where
  days : Int
  year : Int
  month : Nat
deriving DecidableEq

/-- One obstacle record: the `properties` of an `ObstacleFeature` plus its
point coordinate.  Optional fields are `Option`s; the code supplies the
defaults (`|| 0`, `|| "UNK"`, `|| ""`) at each use site. -/
structure Feature where
  id : String
  type : String
  max_fl : Option Int
  text : String
  fir : Option String
  radius : Option ℚ
  start_date : Option JsDate
  end_date : Option JsDate
  min_fl : Option Int
  coordinates : Int × Int
deriving DecidableEq

/-- The user-controlled filter state of the provider. -/
structure FilterParams where
  minHeight : Int
  maxHeight : Int
  activeTypes : List String
  searchTerm : String
  showUnlitOnly : Bool
  regionFilter : String
deriving DecidableEq

/-- `feature.properties.radius || 0`. -/
def radiusD (f : Feature) : ℚ := f.radius.getD 0

/-- `feature.properties.max_fl || 0`. -/
def maxFlD (f : Feature) : Int := f.max_fl.getD 0

/-- `(feature.properties.max_fl || 0) * 100`, the height in feet. -/
def heightFt (f : Feature) : Int := maxFlD f * 100

/-- The hygiene radius bound `1.5` NM, written as the raw fraction `3/2`
so that it evaluates by kernel reduction. -/
def radiusLimit : ℚ := ⟨3, 2, by decide, by decide⟩

/-- `(feature.properties.fir || "UNK").toUpperCase()`. -/
def firU (f : Feature) : String := jsUpper (jsOrStr f.fir "UNK")

/-- First provider version, `filteredData` predicate (the function passed to
`data.features.filter`): hygiene checks, then region, and a conjunction of
height, type, search and unlit matches. -/
def filterPred1 (p : FilterParams) (f : Feature) : Bool :=
  if radiusLimit < radiusD f then false
  else if f.type = "UNKNOWN" then false
  else if p.regionFilter ≠ "ALL" ∧ firU f ≠ p.regionFilter then false
  else
    let matchesHeight : Bool := p.minHeight ≤ heightFt f ∧ heightFt f ≤ p.maxHeight
    let matchesType : Bool := p.activeTypes.contains f.type
    let searchLower := jsLower p.searchTerm
    let text := jsLower f.text
    let idLower := jsLower f.id
    let firLower := jsLower (firU f)
    let matchesSearch : Bool :=
      incl text searchLower || incl idLower searchLower || incl firLower searchLower
    let matchesUnlit : Bool :=
      if p.showUnlitOnly then
        incl text "unlit" || incl text "lgt out" || incl text "out of service"
      else true
    matchesHeight && matchesType && matchesSearch && matchesUnlit

/-- Second provider version, `filteredData` predicate: same hygiene checks,
then a short-circuiting pipeline (region, type, height, unlit, search).
The unlit keywords are checked on the raw `text` (no `toLowerCase`), and
the search falls back to `p.fir || ''` instead of `p.fir || "UNK"`. -/
def filterPred2 (p : FilterParams) (f : Feature) : Bool :=
  if radiusLimit < radiusD f then false
  else if f.type = "UNKNOWN" then false
  else if p.regionFilter ≠ "ALL" ∧ firU f ≠ p.regionFilter then false
  else if ¬ p.activeTypes.contains f.type then false
  else if heightFt f < p.minHeight ∨ p.maxHeight < heightFt f then false
  else if p.showUnlitOnly ∧
      ¬ (incl f.text "unlit" ∨ incl f.text "lgt out" ∨ incl f.text "out of service") then false
  else if p.searchTerm ≠ "" ∧
      ¬ (incl (jsLower f.text) (jsLower p.searchTerm) ∨
         incl (jsLower f.id) (jsLower p.searchTerm) ∨
         incl (jsLower (jsOrStr f.fir "")) (jsLower p.searchTerm)) then false
  else true

/-- `filteredData` of the first provider version: `null` stays `null`,
otherwise the features are filtered. -/
def filteredData1 (data : Option (List Feature)) (p : FilterParams) : Option (List Feature) :=
  match data with
  | none => none
  | some l => some (l.filter (filterPred1 p))

/-- `filteredData` of the second provider version. -/
def filteredData2 (data : Option (List Feature)) (p : FilterParams) : Option (List Feature) :=
  match data with
  | none => none
  | some l => some (l.filter (filterPred2 p))

/-- The unconditional data-hygiene predicate (the leading checks of both
filter versions): `radius ≤ 1.5` and `type ≠ "UNKNOWN"`. -/
def isHygienic (f : Feature) : Bool :=
  decide (radiusD f ≤ radiusLimit) && decide (f.type ≠ "UNKNOWN")

/-- `avgCeiling`: 0 on a `null` or empty collection, otherwise the mean of
the `max_fl || 0` values (a `reduce` sum divided by the length). -/
def avgCeiling (fd : Option (List Feature)) : ℚ :=
  match fd with
  | none => 0
  | some l =>
    if l.length = 0 then 0
    else (l.foldl (fun sum f => sum + (maxFlD f : ℚ)) 0) / (l.length : ℚ)

/-- The three-keyword unlit heuristic of the first filter version (and of
the map markers): the lower-cased description contains `"unlit"`,
`"lgt out"` or `"out of service"`. -/
def isUnlit (f : Feature) : Bool :=
  incl (jsLower f.text) "unlit" || incl (jsLower f.text) "lgt out" ||
    incl (jsLower f.text) "out of service"

/-- The two-keyword unlit check used by the dashboard engines C (KPIs),
G (scatter) and H (compliance): only `"unlit"` and `"out of service"`. -/
def unlitDash (f : Feature) : Bool :=
  incl (jsLower f.text) "unlit" || incl (jsLower f.text) "out of service"

/-- The VFR conflict band of engine C: `max_fl` between FL 5 and FL 20. -/
def vfrConflict (f : Feature) : Bool :=
  decide (5 ≤ maxFlD f) && decide (maxFlD f ≤ 20)

/-- One vertical bucket of engine A (`vfrProfile`). -/
structure VfrBucket where
  name : String
  fl : Int
  wind : Nat
  other : Nat
deriving DecidableEq

/-- The five initial buckets of engine A. -/
def vfrInit : List VfrBucket :=
  [⟨"0-500ft", 5, 0, 0⟩, ⟨"500-1k", 10, 0, 0⟩, ⟨"1k-2k", 20, 0, 0⟩,
   ⟨"2k-3k", 30, 0, 0⟩, ⟨"> 3k", 999, 0, 0⟩]

/-- Engine A's bucket index for a flight level. -/
def vfrBucketIndex (fl : Int) : Nat :=
  if fl ≤ 5 then 0 else if fl ≤ 10 then 1 else if fl ≤ 20 then 2
  else if fl ≤ 30 then 3 else 4

/-- `buckets[i].wind++` / `buckets[i].other++`. -/
def vfrBump (bs : List VfrBucket) (i : Nat) (isWind : Bool) : List VfrBucket :=
  match bs.get? i with
  | none => bs
  | some b =>
    bs.set i (if isWind then { b with wind := b.wind + 1 }
              else { b with other := b.other + 1 })

/-- Engine A: VFR airspace profile.  `null` gives `[]`; otherwise each
feature bumps the bucket of its `max_fl || 0`. -/
def vfrProfile (fd : Option (List Feature)) : List VfrBucket :=
  match fd with
  | none => []
  | some l =>
    l.foldl (fun bs f =>
      vfrBump bs (vfrBucketIndex (maxFlD f)) (f.type = "WIND TURBINE")) vfrInit

/-- An entry of a chart data list: display name, value, color. -/
structure ChartEntry where
  name : String
  value : Int
  color : String
deriving DecidableEq

/-- The running counts of engine B, one per display key of the
`counts` record. -/
structure CompCounts where
  wind : Nat
  crane : Nat
  mast : Nat
  other : Nat
deriving DecidableEq

/-- One step of engine B's `forEach`: increment the count of the feature's
type if it is a display key, else the `OTHER` bucket. -/
def compStep (c : CompCounts) (f : Feature) : CompCounts :=
  if f.type = "WIND TURBINE" then { c with wind := c.wind + 1 }
  else if f.type = "CRANE" then { c with crane := c.crane + 1 }
  else if f.type = "MAST" then { c with mast := c.mast + 1 }
  else if f.type = "OTHER" then { c with other := c.other + 1 }
  else { c with other := c.other + 1 }

/-- Engine B: obstacle composition; the four chart entries with the
zero-valued ones dropped (`.filter(d => d.value > 0)`). -/
def compositionData (fd : Option (List Feature)) : List ChartEntry :=
  match fd with
  | none => []
  | some l =>
    let c := l.foldl compStep ⟨0, 0, 0, 0⟩
    ([⟨"Wind Turbines", c.wind, "#3b82f6"⟩, ⟨"Cranes", c.crane, "#8b5cf6"⟩,
      ⟨"Masts", c.mast, "#f59e0b"⟩, ⟨"Other", c.other, "#64748b"⟩]
      : List ChartEntry).filter (fun d => 0 < d.value)

/-- Engine C's result record. -/
structure Kpis where
  total : Nat
  unlit : Nat
  vfrConflict : Nat
deriving DecidableEq

/-- Engine C: KPI counts.  `null` gives the all-zero record; otherwise a
`forEach` accumulates the unlit and VFR-conflict counters. -/
def kpis (fd : Option (List Feature)) : Kpis :=
  match fd with
  | none => ⟨0, 0, 0⟩
  | some l =>
    let z := l.foldl (fun (acc : Nat × Nat) f =>
      let acc1 := if unlitDash f then (acc.1 + 1, acc.2) else acc
      if vfrConflict f then (acc1.1, acc1.2 + 1) else acc1) (0, 0)
    ⟨l.length, z.1, z.2⟩

/-- Engine D's filter predicate: lower-cased description contains `"unlit"`
or `"out"`, or the obstacle tops FL 20. -/
def critPred (f : Feature) : Bool :=
  incl (jsLower f.text) "unlit" || incl (jsLower f.text) "out" ||
    decide (20 < maxFlD f)

/-- The order a stable descending sort on `max_fl || 0` realises on the
position-indexed list: higher altitude first, equal altitudes by original
position. -/
def hazKeyLe (a b : Nat × Feature) : Prop :=
  maxFlD b.2 < maxFlD a.2 ∨ (maxFlD b.2 = maxFlD a.2 ∧ a.1 ≤ b.1)

instance : DecidableRel hazKeyLe := fun a b =>
  inferInstanceAs (Decidable (maxFlD b.2 < maxFlD a.2 ∨ (maxFlD b.2 = maxFlD a.2 ∧ a.1 ≤ b.1)))

instance : IsTotal (Nat × Feature) hazKeyLe where
  total a b := by
    unfold hazKeyLe
    rcases lt_trichotomy (maxFlD a.2) (maxFlD b.2) with h | h | h
    · exact Or.inr (Or.inl h)
    · rcases Nat.le_total a.1 b.1 with h' | h'
      · exact Or.inl (Or.inr ⟨h.symm, h'⟩)
      · exact Or.inr (Or.inr ⟨h, h'⟩)
    · exact Or.inl (Or.inl h)

instance : IsTrans (Nat × Feature) hazKeyLe where
  trans a b c hab hbc := by
    unfold hazKeyLe at *
    rcases hab with h1 | ⟨h1, h1'⟩
    · rcases hbc with h2 | ⟨h2, h2'⟩
      · exact Or.inl (h2.trans h1)
      · exact Or.inl (h2 ▸ h1)
    · rcases hbc with h2 | ⟨h2, h2'⟩
      · exact Or.inl (h1 ▸ h2)
      · exact Or.inr ⟨h2.trans h1, h1'.trans h2'⟩

/-- Engine D before projecting away the positions: stable descending sort
of the position-indexed surviving features, truncated to 15. -/
def criticalHazardsIdx (fd : Option (List Feature)) : List (Nat × Feature) :=
  match fd with
  | none => []
  | some l => (((l.filter critPred).enum).insertionSort hazKeyLe).take 15

/-- Engine D: critical hazard feed (filter, stable sort descending by
`max_fl || 0`, `slice(0, 15)`). -/
def criticalHazards (fd : Option (List Feature)) : List Feature :=
  (criticalHazardsIdx fd).map Prod.snd

/-- Engine E: freshness count.  `today` is the serial day of `new Date()`;
the code subtracts 600 days from it and counts the features whose
`start_date` is on/after the cutoff (features without one are skipped). -/
def freshnessCount (today : Int) (fd : Option (List Feature)) : Nat :=
  match fd with
  | none => 0
  | some l =>
    (l.filter (fun f =>
      match f.start_date with
      | none => false
      | some d => decide (today - 600 ≤ d.days))).length

/-- The month labels of engine F. -/
def monthNames : List String :=
  ["Jan", "Feb", "Mar", "Apr", "May", "Jun",
   "Jul", "Aug", "Sep", "Oct", "Nov", "Dec"]

/-- Engine F: monthly activity for the 2025 operational year.  `null`
gives `[]`; otherwise each feature whose `start_date` falls in 2025 bumps
its month's counter. -/
def monthlyActivity (fd : Option (List Feature)) : List (String × Nat) :=
  match fd with
  | none => []
  | some l =>
    l.foldl (fun ms f =>
      match f.start_date with
      | none => ms
      | some d =>
        if d.year = 2025 then
          match ms.get? d.month with
          | none => ms
          | some m => ms.set d.month (m.1, m.2 + 1)
        else ms) (monthNames.map (fun n => (n, 0)))

/-- Engine G's axis placement: `typeMap[t] || 5`. -/
def typeOrdinal (t : String) : Int :=
  if t = "WIND TURBINE" then 1 else if t = "CRANE" then 2
  else if t = "MAST" then 3 else if t = "LIGHTS" then 4 else 5

/-- One point of engine G's scatter projection. -/
structure ScatterPoint where
  idx : Nat
  x : Int
  y : Int
  type : String
  status : String
  color : String
  name : String
deriving DecidableEq

/-- Engine G: the kill-zone matrix, one tuple per surviving feature. -/
def scatterData (fd : Option (List Feature)) : List ScatterPoint :=
  match fd with
  | none => []
  | some l =>
    l.enum.map (fun x =>
      ⟨x.1, typeOrdinal x.2.type, maxFlD x.2, x.2.type,
       if unlitDash x.2 then "UNLIT" else "LIT",
       if unlitDash x.2 then "#ef4444" else "#3b82f6", x.2.id⟩)

/-- JS `Math.round` on the (non-negative) values arising here: round half
away from zero, i.e. `⌊q + 1/2⌋`. -/
def jsRound (q : ℚ) : Int := ⌊q + 1 / 2⌋

/-- Engine H's result: the rate and the gauge chart list. -/
structure Compliance where
  rate : Int
  chart : List ChartEntry
deriving DecidableEq

/-- Engine H: safety compliance score.  `null` gives rate 0 with an empty
chart; an empty collection gives rate 100; otherwise
`Math.round((safe / total) * 100)` with the two-keyword unlit count. -/
def complianceData (fd : Option (List Feature)) : Compliance :=
  match fd with
  | none => ⟨0, []⟩
  | some l =>
    if l.length = 0 then ⟨100, [⟨"Safe", 1, "#10b981"⟩]⟩
    else
      let unlit := l.countP unlitDash
      let safe : Int := (l.length : Int) - unlit
      ⟨jsRound ((safe : ℚ) / (l.length : ℚ) * 100),
       [⟨"Compliant (Lit)", safe, "#10b981"⟩,
        ⟨"Violation (Unlit)", unlit, "#ef4444"⟩]⟩

/-! ### Concrete fixtures

Small concrete features and parameter records, used to instantiate the
theorems below on explicit inputs.  `defaults` is the provider's initial
filter state. -/

/-- The provider's initial filter state. -/
def defaults : FilterParams :=
  ⟨0, 50000, ["WIND TURBINE", "CRANE", "MAST", "LIGHTS"], "", false, "ALL"⟩

/-- `0.5` as a raw fraction. -/
def halfQ : ℚ := ⟨1, 2, by decide, by decide⟩

/-- A well-lit wind turbine reported as unlit, FL 15, radius 0.5. -/
def fTurbine : Feature :=
  ⟨"A1", "WIND TURBINE", some 15, "unlit turbine", none, some halfQ,
   none, none, none, (0, 0)⟩

/-- A feature of the excluded literal type `UNKNOWN`. -/
def fUnknown : Feature :=
  ⟨"U1", "UNKNOWN", some 99, "", none, none, none, none, none, (0, 0)⟩

/-- A low mast whose description contains `"lgt out"` (but neither
`"unlit"` nor `"out of service"`). -/
def fLgtOut : Feature :=
  ⟨"L1", "MAST", some 3, "lgt out", none, none, none, none, none, (0, 0)⟩

/-- A low mast whose description contains `"out"` but none of the three
unlit keywords. -/
def fChkOut : Feature :=
  ⟨"O1", "MAST", some 3, "chk out", none, none, none, none, none, (0, 0)⟩

/-- A mast with no `fir` field and a description that does not mention
`unk`. -/
def fNoFir : Feature :=
  ⟨"X1", "MAST", some 10, "tower", none, none, none, none, none, (0, 0)⟩

/-- The default parameters with the search term `"unk"`. -/
def pSearchUnk : FilterParams := { defaults with searchTerm := "unk" }

/-- A mast whose `start_date` is serial day 900 of the model's calendar. -/
def fStale : Feature :=
  ⟨"N1", "MAST", some 3, "x", none, none, some ⟨900, 2025, 4⟩, none, none, (0, 0)⟩

/-- A mast with radius 2 NM, excluded by the hygiene invariant. -/
def fWide : Feature :=
  ⟨"W1", "MAST", some 10, "wide", none, some ⟨2, 1, by decide, by decide⟩,
   none, none, none, (0, 0)⟩

/-! ### Helper lemmas -/

theorem radiusLimit_eq : radiusLimit = 1.5 := by
  have h := Rat.num_div_den radiusLimit
  have hn : radiusLimit.num = 3 := rfl
  have hd : radiusLimit.den = 2 := rfl
  rw [hn, hd] at h
  rw [← h]; norm_num

theorem incl_nil (s : String) : incl s "" = true := by
  simp only [incl, decide_eq_true_eq]
  exact List.nil_infix

theorem jsLower_nil : jsLower "" = "" := rfl

/-- Both filter versions reject a feature that fails the hygiene checks. -/
theorem filterPred_hygiene_false (p : FilterParams) (f : Feature)
    (h : 1.5 < radiusD f ∨ f.type = "UNKNOWN") :
    filterPred1 p f = false ∧ filterPred2 p f = false := by
  have h' : radiusLimit < radiusD f ∨ f.type = "UNKNOWN" := by
    rwa [radiusLimit_eq]
  rcases h' with h' | h'
  · constructor <;> simp [filterPred1, filterPred2, h']
  · constructor <;> by_cases hr : radiusLimit < radiusD f <;>
      simp [filterPred1, filterPred2, h', hr]

/-- The `forEach` of engine C counts the two dashboard predicates. -/
theorem kpis_foldl (l : List Feature) (z : Nat × Nat) :
    l.foldl (fun (acc : Nat × Nat) f =>
      let acc1 := if unlitDash f then (acc.1 + 1, acc.2) else acc
      if vfrConflict f then (acc1.1, acc1.2 + 1) else acc1) z =
      (z.1 + l.countP unlitDash, z.2 + l.countP vfrConflict) := by
  induction l generalizing z with
  | nil => simp
  | cons f t ih =>
    by_cases hu : unlitDash f <;> by_cases hv : vfrConflict f <;>
      simp [List.countP_cons, hu, hv, ih] <;> omega

/-- The `reduce` of `avgCeiling` sums the defaulted flight levels. -/
theorem avg_foldl (l : List Feature) (s : ℚ) :
    l.foldl (fun sum f => sum + (maxFlD f : ℚ)) s =
      s + (l.map (fun f => (maxFlD f : ℚ))).sum := by
  induction l generalizing s with
  | nil => simp
  | cons f t ih => simp [ih]; ring

/-- Engine B's `forEach` distributes every feature into exactly one
bucket: the four counters always sum to the number of features seen. -/
theorem comp_foldl (l : List Feature) (c : CompCounts) :
    (l.foldl compStep c).wind + (l.foldl compStep c).crane +
      (l.foldl compStep c).mast + (l.foldl compStep c).other =
      c.wind + c.crane + c.mast + c.other + l.length := by
  induction l generalizing c with
  | nil => simp
  | cons f t ih =>
    simp only [List.foldl_cons, List.length_cons]
    rw [ih]
    unfold compStep
    split <;> try split <;> try split <;> try split
    all_goals (simp; omega)

/-- Dropping the zero entries of a list of non-negative chart entries
keeps the sum of the values. -/
theorem sum_filter_pos (xs : List ChartEntry) (h : ∀ e ∈ xs, 0 ≤ e.value) :
    (((xs.filter (fun d => 0 < d.value)).map ChartEntry.value).sum : Int) =
      ((xs.map ChartEntry.value).sum : Int) := by
  induction xs with
  | nil => simp
  | cons e t ih =>
    have he : 0 ≤ e.value := h e (by simp)
    have ht : ∀ x ∈ t, 0 ≤ x.value := fun x hx => h x (by simp [hx])
    by_cases hp : 0 < e.value
    · simp [List.filter_cons, hp, ih ht]
    · have : e.value = 0 := le_antisymm (not_lt.mp hp) he
      simp [List.filter_cons, hp, ih ht, this]

/-- The second component of an entry of `enumFrom` is a member of the
underlying list. -/
theorem snd_mem_of_mem_enumFrom {α : Type} {x : ℕ × α} :
    ∀ {n : ℕ} {l : List α}, x ∈ l.enumFrom n → x.2 ∈ l := by
  intro n l
  induction l generalizing n with
  | nil => simp [List.enumFrom]
  | cons a t ih =>
    intro hx
    rcases hx with _ | hx
    · simp
    · exact List.mem_cons_of_mem _ (ih (by assumption))

theorem snd_mem_of_mem_enum {α : Type} {x : ℕ × α} {l : List α}
    (h : x ∈ l.enum) : x.2 ∈ l :=
  snd_mem_of_mem_enumFrom h

/-! ### The claims -/

/-- C1: for every collection, every choice of filter parameters and every
feature `f` with `radius > 1.5` or `type = "UNKNOWN"`, the filtered
collection of either provider version never contains `f`. -/
theorem claim_C1_hygiene_exclusion (l : List Feature) (p : FilterParams)
    (f : Feature) (h : 1.5 < radiusD f ∨ f.type = "UNKNOWN")
    (fd : List Feature)
    (hfd : filteredData1 (some l) p = some fd ∨ filteredData2 (some l) p = some fd) :
    f ∉ fd := by
  intro hmem
  rcases hfd with hfd | hfd
  · simp only [filteredData1, Option.some.injEq] at hfd
    subst hfd
    exact absurd (List.of_mem_filter hmem)
      (by simp [(filterPred_hygiene_false p f h).1])
  · simp only [filteredData2, Option.some.injEq] at hfd
    subst hfd
    exact absurd (List.of_mem_filter hmem)
      (by simp [(filterPred_hygiene_false p f h).2])

theorem claim_C1_hygiene_exclusion_witness :
    ((1.5 : ℚ) < radiusD fUnknown ∨ fUnknown.type = "UNKNOWN") ∧
      (filteredData1 (some [fUnknown]) defaults = some [] ∨
        filteredData2 (some [fUnknown]) defaults = some []) ∧
      fUnknown ∉ ([] : List Feature) :=
  ⟨Or.inr rfl, Or.inl (by decide),
    claim_C1_hygiene_exclusion [fUnknown] defaults fUnknown (Or.inr rfl) []
      (Or.inl (by decide))⟩

/-- C4 counterexample: the description `"lgt out"` satisfies the
centralized three-keyword `isUnlit`, but engine C's `unlit` KPI does not
count it (the dashboard checks only `"unlit"` and `"out of service"`). -/
theorem claim_C4_counterexample :
    List.countP isUnlit [fLgtOut] = 1 ∧ (kpis (some [fLgtOut])).unlit = 0 ∧
      (kpis (some [fLgtOut])).total = 1 := by
  refine ⟨by decide, ?_, by decide⟩
  show (kpis (some [fLgtOut])).unlit = 0
  decide

/-- C4 amended: `kpis.total` is the collection's length and `kpis.unlit`
counts the features whose lower-cased description contains `"unlit"` or
`"out of service"` (the dashboard's two-keyword check, which omits
`"lgt out"`); `kpis.vfrConflict` counts the FL 5-20 band. -/
theorem claim_C4_amended (l : List Feature) :
    (kpis (some l)).total = l.length ∧
      (kpis (some l)).unlit = l.countP unlitDash ∧
      (kpis (some l)).vfrConflict = l.countP vfrConflict := by
  simp [kpis, kpis_foldl]

theorem claim_C4_amended_witness :
    (kpis (some [fTurbine])).total = [fTurbine].length ∧
      (kpis (some [fTurbine])).unlit = List.countP unlitDash [fTurbine] :=
  ⟨(claim_C4_amended [fTurbine]).1, (claim_C4_amended [fTurbine]).2.1⟩

/-- C2 counterexample: on the one-feature collection whose description is
`"lgt out"`, the centralized `isUnlit` counts one unlit feature, so the
claimed formula gives rate 0, but engine H (which checks only `"unlit"`
and `"out of service"`) returns rate 100. -/
theorem claim_C2_counterexample :
    isUnlit fLgtOut = true ∧
      jsRound (100 * (((1 : ℚ) - (List.countP isUnlit [fLgtOut] : ℚ)) / 1)) = 0 ∧
      (complianceData (some [fLgtOut])).rate = 100 := by
  refine ⟨by decide, ?_, ?_⟩
  · have hc : List.countP isUnlit [fLgtOut] = 1 := by decide
    rw [hc]
    norm_num [jsRound]
  · have hc : List.countP unlitDash [fLgtOut] = 0 := by decide
    show (complianceData (some [fLgtOut])).rate = 100
    norm_num [complianceData, hc, jsRound]

/-- C2 amended: the rate is `round(100 × (total − unlit₂) / total)` where
`unlit₂` counts the dashboard's two-keyword check (`"unlit"`,
`"out of service"` — not the full `isUnlit`); `total = 0` yields 100, and
the result always lies in `[0, 100]`. -/
theorem claim_C2_amended (l : List Feature) :
    ((complianceData (some l)).rate =
        if l.length = 0 then 100
        else jsRound (100 * (((l.length : ℚ) - (l.countP unlitDash : ℚ)) / (l.length : ℚ)))) ∧
      0 ≤ (complianceData (some l)).rate ∧ (complianceData (some l)).rate ≤ 100 := by
  by_cases h : l.length = 0
  · refine ⟨by simp [complianceData, h], ?_, ?_⟩ <;> simp [complianceData, h]
  · have hpos : 0 < l.length := Nat.pos_of_ne_zero h
    have hlen0 : (0 : ℚ) < (l.length : ℚ) := by exact_mod_cast hpos
    have hcount : l.countP unlitDash ≤ l.length := List.countP_le_length _
    have hrate : (complianceData (some l)).rate =
        jsRound (((((l.length : Int) - (l.countP unlitDash : Int)) : Int) : ℚ) /
          (l.length : ℚ) * 100) := by
      simp [complianceData, h]
    have hq0 : (0 : ℚ) ≤ ((((l.length : Int) - (l.countP unlitDash : Int)) : Int) : ℚ) /
        (l.length : ℚ) * 100 := by
      apply mul_nonneg _ (by norm_num)
      apply div_nonneg _ hlen0.le
      push_cast
      have : (l.countP unlitDash : ℚ) ≤ (l.length : ℚ) := by exact_mod_cast hcount
      linarith
    have hq100 : ((((l.length : Int) - (l.countP unlitDash : Int)) : Int) : ℚ) /
        (l.length : ℚ) * 100 ≤ 100 := by
      have hdiv : ((((l.length : Int) - (l.countP unlitDash : Int)) : Int) : ℚ) /
          (l.length : ℚ) ≤ 1 := by
        rw [div_le_one hlen0]
        push_cast
        have : (0 : ℚ) ≤ (l.countP unlitDash : ℚ) := by positivity
        linarith
      calc ((((l.length : Int) - (l.countP unlitDash : Int)) : Int) : ℚ) /
            (l.length : ℚ) * 100 ≤ 1 * 100 :=
          mul_le_mul_of_nonneg_right hdiv (by norm_num)
        _ = 100 := by norm_num
    refine ⟨?_, ?_, ?_⟩
    · rw [hrate, if_neg h]
      congr 1
      push_cast
      ring
    · rw [hrate]
      unfold jsRound
      refine Int.le_floor.mpr ?_
      have hq0' := hq0
      push_cast at hq0' ⊢
      linarith
    · rw [hrate]
      unfold jsRound
      have h1 : ((((l.length : Int) - (l.countP unlitDash : Int)) : Int) : ℚ) /
          (l.length : ℚ) * 100 + 1 / 2 ≤ 100 + 1 / 2 := by linarith
      have h2 := Int.floor_le_floor h1
      have h3 : ⌊(100 : ℚ) + 1 / 2⌋ = 100 := by norm_num
      omega

theorem claim_C2_amended_witness :
    0 ≤ (complianceData (some [fLgtOut])).rate ∧
      (complianceData (some [fLgtOut])).rate ≤ 100 :=
  ⟨(claim_C2_amended [fLgtOut]).2.1, (claim_C2_amended [fLgtOut]).2.2⟩

/-- C6: with region `ALL`, empty search, `unlitOnly` off, every type of
the collection active and the height range covering every feature, both
filter versions return exactly the hygienic subset of the input, in input
order. -/
theorem claim_C6_roundtrip (l : List Feature) (p : FilterParams)
    (hreg : p.regionFilter = "ALL") (hsearch : p.searchTerm = "")
    (hunlit : p.showUnlitOnly = false)
    (htypes : ∀ f ∈ l, p.activeTypes.contains f.type = true)
    (hheight : ∀ f ∈ l, p.minHeight ≤ heightFt f ∧ heightFt f ≤ p.maxHeight) :
    filteredData1 (some l) p = some (l.filter isHygienic) ∧
      filteredData2 (some l) p = some (l.filter isHygienic) := by
  have hcongr1 : ∀ f ∈ l, filterPred1 p f = isHygienic f := by
    intro f hf
    have ht : f.type ∈ p.activeTypes := by simpa using htypes f hf
    by_cases hr : radiusLimit < radiusD f
    · simp [filterPred1, isHygienic, hr, not_le.mpr hr]
    · by_cases hu : f.type = "UNKNOWN"
      · simp [filterPred1, isHygienic, hr, hu]
      · simp [filterPred1, isHygienic, not_lt.mp hr, hr, hu, hreg, hsearch,
          hunlit, ht, (hheight f hf).1, (hheight f hf).2, jsLower_nil, incl_nil]
  have hcongr2 : ∀ f ∈ l, filterPred2 p f = isHygienic f := by
    intro f hf
    have ht : f.type ∈ p.activeTypes := by simpa using htypes f hf
    by_cases hr : radiusLimit < radiusD f
    · simp [filterPred2, isHygienic, hr, not_le.mpr hr]
    · by_cases hu : f.type = "UNKNOWN"
      · simp [filterPred2, isHygienic, hr, hu]
      · simp [filterPred2, isHygienic, not_lt.mp hr, hr, hu, hreg, hsearch,
          hunlit, ht, not_lt.mpr (hheight f hf).1, not_lt.mpr (hheight f hf).2]
  constructor
  · simp only [filteredData1, Option.some.injEq]
    exact List.filter_congr hcongr1
  · simp only [filteredData2, Option.some.injEq]
    exact List.filter_congr hcongr2

theorem claim_C6_roundtrip_witness :
    defaults.regionFilter = "ALL" ∧ defaults.searchTerm = "" ∧
      defaults.showUnlitOnly = false ∧
      (∀ f ∈ [fTurbine, fWide], defaults.activeTypes.contains f.type = true) ∧
      (∀ f ∈ [fTurbine, fWide],
        defaults.minHeight ≤ heightFt f ∧ heightFt f ≤ defaults.maxHeight) ∧
      filteredData1 (some [fTurbine, fWide]) defaults =
        some ([fTurbine, fWide].filter isHygienic) :=
  ⟨rfl, rfl, rfl, by decide, by decide,
    (claim_C6_roundtrip [fTurbine, fWide] defaults rfl rfl rfl
      (by decide) (by decide)).1⟩

/-- C9 counterexample: on a feature with no `fir` field and the search
term `"unk"`, the first provider version keeps the feature (its search
falls back to `"UNK"`) while the second drops it (its search falls back to
the empty string): the two `filteredData` computations disagree. -/
theorem claim_C9_counterexample :
    filteredData1 (some [fNoFir]) pSearchUnk = some [fNoFir] ∧
      filteredData2 (some [fNoFir]) pSearchUnk = some [] := by
  constructor
  · show filteredData1 (some [fNoFir]) pSearchUnk = some [fNoFir]
    decide
  · show filteredData2 (some [fNoFir]) pSearchUnk = some []
    decide

/-- C9 amended: the two `filteredData` computations agree on every
collection and every parameter record whose `showUnlitOnly` is off and
whose `searchTerm` is empty (the divergences are confined to the raw-case
unlit check and to the search fallback for an absent region). -/
theorem claim_C9_amended (data : Option (List Feature)) (p : FilterParams)
    (hunlit : p.showUnlitOnly = false) (hsearch : p.searchTerm = "") :
    filteredData1 data p = filteredData2 data p := by
  cases data with
  | none => rfl
  | some l =>
    simp only [filteredData1, filteredData2, Option.some.injEq]
    apply List.filter_congr
    intro f _
    by_cases hr : radiusLimit < radiusD f
    · simp [filterPred1, filterPred2, hr]
    · by_cases hu : f.type = "UNKNOWN"
      · simp [filterPred1, filterPred2, hr, hu]
      · by_cases hregion : p.regionFilter ≠ "ALL" ∧ firU f ≠ p.regionFilter
        · simp [filterPred1, filterPred2, hr, hu, hregion]
        · by_cases htype : f.type ∈ p.activeTypes
          · by_cases hmin : p.minHeight ≤ heightFt f
            · by_cases hmax : heightFt f ≤ p.maxHeight
              · simp [filterPred1, filterPred2, hr, hu, hregion, htype, hmin,
                  hmax, not_lt.mpr hmin, not_lt.mpr hmax, hunlit, hsearch,
                  jsLower_nil, incl_nil]
              · simp [filterPred1, filterPred2, hr, hu, hregion, htype, hmin,
                  hmax, not_le.mp hmax, hunlit, hsearch, jsLower_nil, incl_nil]
            · simp [filterPred1, filterPred2, hr, hu, hregion, htype, hmin,
                not_le.mp hmin, hunlit, hsearch, jsLower_nil, incl_nil]
          · simp [filterPred1, filterPred2, hr, hu, hregion, htype, hunlit,
              hsearch, jsLower_nil, incl_nil]

theorem claim_C9_amended_witness :
    defaults.showUnlitOnly = false ∧ defaults.searchTerm = "" ∧
      filteredData1 (some [fTurbine, fNoFir]) defaults =
        filteredData2 (some [fTurbine, fNoFir]) defaults :=
  ⟨rfl, rfl, claim_C9_amended (some [fTurbine, fNoFir]) defaults rfl rfl⟩

/-- C3 counterexample: the one-feature collection whose description is
`"chk out"` (no unlit keyword, FL 3): engine D returns it, although it is
neither unlit nor above FL 20, because the code's filter also accepts any
description containing the bare substring `"out"`. -/
theorem claim_C3_counterexample :
    criticalHazards (some [fChkOut]) = [fChkOut] ∧ isUnlit fChkOut = false ∧
      maxFlD fChkOut ≤ 20 := by
  refine ⟨?_, by decide, by decide⟩
  show criticalHazards (some [fChkOut]) = [fChkOut]
  decide

/-- C3 amended: engine D returns at most 15 items; every returned item has
a lower-cased description containing `"unlit"` or `"out"`, or tops FL 20;
and the position-indexed result is strictly ordered by descending
`max_fl || 0` with ties broken by ascending original position (the indices
being positions in the filtered, input-ordered list). -/
theorem claim_C3_amended (fd : Option (List Feature)) :
    (criticalHazards fd).length ≤ 15 ∧
      (∀ f ∈ criticalHazards fd, critPred f = true) ∧
      (criticalHazardsIdx fd).Pairwise
        (fun a b => maxFlD b.2 < maxFlD a.2 ∨ (maxFlD b.2 = maxFlD a.2 ∧ a.1 < b.1)) ∧
      ∀ l, fd = some l → ∀ x ∈ criticalHazardsIdx fd, x ∈ (l.filter critPred).enum := by
  cases fd with
  | none =>
    refine ⟨by simp [criticalHazards, criticalHazardsIdx], ?_, ?_, ?_⟩
    · intro f hf
      simp [criticalHazards, criticalHazardsIdx] at hf
    · simp [criticalHazardsIdx]
    · intro l hl
      cases hl
  | some l =>
    have hperm : ((l.filter critPred).enum.insertionSort hazKeyLe).Perm
        ((l.filter critPred).enum) :=
      List.perm_insertionSort hazKeyLe _
    have hmem : ∀ x ∈ criticalHazardsIdx (some l), x ∈ (l.filter critPred).enum := by
      intro x hx
      exact hperm.subset ((List.take_sublist 15 _).subset hx)
    refine ⟨?_, ?_, ?_, ?_⟩
    · simp only [criticalHazards, List.length_map, criticalHazardsIdx,
        List.length_take]
      exact min_le_left _ _
    · intro f hf
      simp only [criticalHazards, List.mem_map] at hf
      obtain ⟨x, hx, rfl⟩ := hf
      exact List.of_mem_filter (snd_mem_of_mem_enum (hmem x hx))
    · have hsorted : ((l.filter critPred).enum.insertionSort hazKeyLe).Pairwise hazKeyLe :=
        List.sorted_insertionSort hazKeyLe _
      have hnodupBase : (((l.filter critPred).enum).map Prod.fst).Nodup := by
        rw [List.enum_map_fst]
        exact List.nodup_range _
      have hnodup : (((l.filter critPred).enum.insertionSort hazKeyLe).map Prod.fst).Nodup :=
        ((hperm.map Prod.fst).nodup_iff).mpr hnodupBase
      have hne : ((l.filter critPred).enum.insertionSort hazKeyLe).Pairwise
          (fun a b => a.1 ≠ b.1) := List.pairwise_map.mp hnodup
      have hstrict : ((l.filter critPred).enum.insertionSort hazKeyLe).Pairwise
          (fun a b => maxFlD b.2 < maxFlD a.2 ∨ (maxFlD b.2 = maxFlD a.2 ∧ a.1 < b.1)) := by
        refine (hsorted.and hne).imp ?_
        rintro a b ⟨hab, hne'⟩
        rcases hab with hlt | ⟨heq, hle⟩
        · exact Or.inl hlt
        · exact Or.inr ⟨heq, lt_of_le_of_ne hle hne'⟩
      exact List.Pairwise.sublist (List.take_sublist 15 _) hstrict
    · intro l' hl'
      injection hl' with hl'
      subst hl'
      exact hmem

theorem claim_C3_amended_witness :
    fChkOut ∈ criticalHazards (some [fChkOut]) ∧ critPred fChkOut = true :=
  ⟨by decide, (claim_C3_amended (some [fChkOut])).2.1 fChkOut (by decide)⟩

/-- C5 counterexample: engine H does not treat a `null` collection like an
empty one: `complianceData` of `null` has rate 0 (and an empty chart),
while the empty collection has rate 100. -/
theorem claim_C5_counterexample :
    (complianceData none).rate = 0 ∧ (complianceData none).chart = [] ∧
      (complianceData (some [])).rate = 100 := by
  refine ⟨rfl, rfl, ?_⟩
  show (complianceData (some [])).rate = 100
  rfl

/-- C5 amended: engines B, C, D, E and G return on a `null` collection
exactly their empty-collection value (`kpis` all zero, `criticalHazards`
empty); but engine H returns rate 0 on `null` against 100 on empty, and
engines A and F return `[]` on `null` against their zero-filled 5- and
12-entry histograms on empty.  None of them raise (all are total). -/
theorem claim_C5_amended :
    kpis none = kpis (some []) ∧
      criticalHazards none = criticalHazards (some []) ∧
      compositionData none = compositionData (some []) ∧
      scatterData none = scatterData (some []) ∧
      avgCeiling none = avgCeiling (some []) ∧
      (∀ today : Int, freshnessCount today none = freshnessCount today (some [])) ∧
      (complianceData none).rate = 0 ∧ (complianceData (some [])).rate = 100 ∧
      vfrProfile none = [] ∧ (vfrProfile (some [])).length = 5 ∧
      monthlyActivity none = [] ∧ (monthlyActivity (some [])).length = 12 := by
  refine ⟨by decide, by decide, by decide, by decide, rfl, fun today => rfl,
    rfl, ?_, rfl, by decide, rfl, by decide⟩
  show (complianceData (some [])).rate = 100
  rfl

/-- C7: the code contradicts its own "last 7 days" label and comment:
engine E counts a feature whose `start_date` lies 100 days in the past
(day 900 against `today` = day 1000) as fresh, because the cutoff is
`today - 600` rather than `today - 7`. -/
theorem claim_C7_freshness_window :
    freshnessCount 1000 (some [fStale]) = 1 ∧
      fStale.start_date = some ⟨900, 2025, 4⟩ ∧ (900 : Int) < 1000 - 7 := by
  refine ⟨?_, rfl, by decide⟩
  show freshnessCount 1000 (some [fStale]) = 1
  decide

/-- C8: engine B counts every feature in exactly one category, so the
values of the returned chart entries sum to the collection's length, and
every returned entry has a positive (hence non-zero) count. -/
theorem claim_C8_composition (l : List Feature) :
    ((compositionData (some l)).map ChartEntry.value).sum = (l.length : Int) ∧
      ∀ e ∈ compositionData (some l), 0 < e.value := by
  constructor
  · have h := comp_foldl l ⟨0, 0, 0, 0⟩
    simp only at h
    simp only [compositionData]
    rw [sum_filter_pos _ (by intro e he; fin_cases he <;> simp)]
    simp only [List.map_cons, List.map_nil, List.sum_cons, List.sum_nil, add_zero]
    omega
  · intro e he
    simp only [compositionData] at he
    have := List.of_mem_filter he
    simpa using this

theorem claim_C8_composition_witness :
    (⟨"Wind Turbines", 1, "#3b82f6"⟩ : ChartEntry) ∈ compositionData (some [fTurbine]) ∧
      0 < (⟨"Wind Turbines", 1, "#3b82f6"⟩ : ChartEntry).value :=
  ⟨by decide, (claim_C8_composition [fTurbine]).2 _ (by decide)⟩

/-- C10: `avgCeiling` is total at the interface: 0 on `null` and on the
empty collection, and the arithmetic mean of the `max_fl || 0` values on
any non-empty collection. -/
theorem claim_C10_avgCeiling :
    avgCeiling none = 0 ∧ avgCeiling (some []) = 0 ∧
      ∀ l : List Feature, l ≠ [] →
        avgCeiling (some l) =
          (l.map (fun f => (maxFlD f : ℚ))).sum / (l.length : ℚ) := by
  refine ⟨rfl, rfl, fun l hl => ?_⟩
  have hlen : l.length ≠ 0 := by simpa using fun h => hl (List.length_eq_zero.mp h)
  simp [avgCeiling, hlen, avg_foldl]

theorem claim_C10_avgCeiling_witness :
    [fTurbine] ≠ ([] : List Feature) ∧
      avgCeiling (some [fTurbine]) =
        ([fTurbine].map (fun f => (maxFlD f : ℚ))).sum / (([fTurbine].length : ℕ) : ℚ) :=
  ⟨by decide, claim_C10_avgCeiling.2.2 [fTurbine] (by decide)⟩

end Aerovert
